import Mathlib

/-!
Verification of the fingerprinter-js aggregation and suspicion-scoring core.

The TypeScript sources are embedded shallowly:
  * JS values occurring in component mappings and custom data are the
    mutually inductive `JSVal` / `JSList` / `JSFields` (integral JS numbers
    are modelled as `Int`; every number handled by the verified code paths
    is integral).
  * The ambient browser state read by `isBrowser` and by the
    `SuspectAnalyzer` (window / document / navigator globals) is the
    structure `WindowEnv`, passed explicitly.
  * JS string-method application to a non-string value raises a TypeError;
    computations that can raise are modelled in `JSResult`.
  * The JS numbers produced by the confidence arithmetic (which steps in
    halves and can divide zero by zero) are `JSNum`; the two half-steps are
    carried as integer half-units, twice their JS values.
-/

mutual

/-- JS runtime values, as they occur in component mappings, custom data and
the suspect analyzer.  Numbers are modelled as integers: every number the
embedded code paths manipulate is integral. -/
inductive JSVal : Type where
  | undefined : JSVal
  | null : JSVal
  | bool (b : Bool) : JSVal
  | num (n : Int) : JSVal
  | str (s : String) : JSVal
  | arr (elems : JSList) : JSVal
  | obj (fields : JSFields) : JSVal

/-- A JS array: a sequence of JS values. -/
inductive JSList : Type where
  | nil : JSList
  | cons (head : JSVal) (tail : JSList) : JSList

/-- A JS object: an insertion-ordered sequence of key / value properties. -/
inductive JSFields : Type where
  | nil : JSFields
  | cons (key : String) (val : JSVal) (tail : JSFields) : JSFields

end

mutual

/-- Decidable equality on `JSVal` (written by hand: the deriving handler does
not support this mutual recursion). -/
def decEqJSVal : (a b : JSVal) → Decidable (a = b)
  | .undefined, .undefined => isTrue rfl
  | .null, .null => isTrue rfl
  | .bool x, .bool y =>
    if h : x = y then isTrue (h ▸ rfl)
    else isFalse (fun hh => h (JSVal.bool.inj hh))
  | .num x, .num y =>
    if h : x = y then isTrue (h ▸ rfl)
    else isFalse (fun hh => h (JSVal.num.inj hh))
  | .str x, .str y =>
    if h : x = y then isTrue (h ▸ rfl)
    else isFalse (fun hh => h (JSVal.str.inj hh))
  | .arr xs, .arr ys =>
    match decEqJSList xs ys with
    | isTrue h => isTrue (h ▸ rfl)
    | isFalse h => isFalse (fun hh => h (JSVal.arr.inj hh))
  | .obj xs, .obj ys =>
    match decEqJSFields xs ys with
    | isTrue h => isTrue (h ▸ rfl)
    | isFalse h => isFalse (fun hh => h (JSVal.obj.inj hh))
  | .undefined, .null => isFalse nofun
  | .undefined, .bool _ => isFalse nofun
  | .undefined, .num _ => isFalse nofun
  | .undefined, .str _ => isFalse nofun
  | .undefined, .arr _ => isFalse nofun
  | .undefined, .obj _ => isFalse nofun
  | .null, .undefined => isFalse nofun
  | .null, .bool _ => isFalse nofun
  | .null, .num _ => isFalse nofun
  | .null, .str _ => isFalse nofun
  | .null, .arr _ => isFalse nofun
  | .null, .obj _ => isFalse nofun
  | .bool _, .undefined => isFalse nofun
  | .bool _, .null => isFalse nofun
  | .bool _, .num _ => isFalse nofun
  | .bool _, .str _ => isFalse nofun
  | .bool _, .arr _ => isFalse nofun
  | .bool _, .obj _ => isFalse nofun
  | .num _, .undefined => isFalse nofun
  | .num _, .null => isFalse nofun
  | .num _, .bool _ => isFalse nofun
  | .num _, .str _ => isFalse nofun
  | .num _, .arr _ => isFalse nofun
  | .num _, .obj _ => isFalse nofun
  | .str _, .undefined => isFalse nofun
  | .str _, .null => isFalse nofun
  | .str _, .bool _ => isFalse nofun
  | .str _, .num _ => isFalse nofun
  | .str _, .arr _ => isFalse nofun
  | .str _, .obj _ => isFalse nofun
  | .arr _, .undefined => isFalse nofun
  | .arr _, .null => isFalse nofun
  | .arr _, .bool _ => isFalse nofun
  | .arr _, .num _ => isFalse nofun
  | .arr _, .str _ => isFalse nofun
  | .arr _, .obj _ => isFalse nofun
  | .obj _, .undefined => isFalse nofun
  | .obj _, .null => isFalse nofun
  | .obj _, .bool _ => isFalse nofun
  | .obj _, .num _ => isFalse nofun
  | .obj _, .str _ => isFalse nofun
  | .obj _, .arr _ => isFalse nofun

/-- Decidable equality on `JSList`. -/
def decEqJSList : (xs ys : JSList) → Decidable (xs = ys)
  | .nil, .nil => isTrue rfl
  | .nil, .cons _ _ => isFalse nofun
  | .cons _ _, .nil => isFalse nofun
  | .cons x xs, .cons y ys =>
    match decEqJSVal x y with
    | isFalse h => isFalse (by intro hh; injection hh with h1 _; exact h h1)
    | isTrue h1 =>
      match decEqJSList xs ys with
      | isTrue h2 => isTrue (h1 ▸ h2 ▸ rfl)
      | isFalse h2 => isFalse (by intro hh; injection hh with _ h3; exact h2 h3)

/-- Decidable equality on `JSFields`. -/
def decEqJSFields : (xs ys : JSFields) → Decidable (xs = ys)
  | .nil, .nil => isTrue rfl
  | .nil, .cons _ _ _ => isFalse nofun
  | .cons _ _ _, .nil => isFalse nofun
  | .cons k₁ v₁ xs, .cons k₂ v₂ ys =>
    if hk : k₁ = k₂ then
      match decEqJSVal v₁ v₂ with
      | isFalse h => isFalse (by intro hh; injection hh with _ h1 _; exact h h1)
      | isTrue hv =>
        match decEqJSFields xs ys with
        | isTrue ht => isTrue (by rw [hk, hv, ht])
        | isFalse ht => isFalse (by intro hh; injection hh with _ _ h2; exact ht h2)
    else
      isFalse (by intro hh; injection hh with h1 _ _; exact hk h1)

end

instance : DecidableEq JSVal := decEqJSVal

instance : DecidableEq JSList := decEqJSList

instance : DecidableEq JSFields := decEqJSFields

/-- `fields.lookup k`: the value of the first property named `k`. -/
def JSFields.lookup : JSFields → String → Option JSVal
  | .nil, _ => none
  | .cons key val tail, k => if key = k then some val else tail.lookup k

/-- Whether a property named `k` is present. -/
def JSFields.hasKey : JSFields → String → Bool
  | .nil, _ => false
  | .cons key _ tail, k => key == k || tail.hasKey k

/-- `Object.keys(fields).length`. -/
def JSFields.length : JSFields → Nat
  | .nil => 0
  | .cons _ _ tail => tail.length + 1

/-- Keep the properties satisfying `p` (in order). -/
def JSFields.filter (p : String → JSVal → Bool) : JSFields → JSFields
  | .nil => .nil
  | .cons key val tail =>
    if p key val then .cons key val (tail.filter p) else tail.filter p

/-- The underlying list of a JS array. -/
def JSList.toList : JSList → List JSVal
  | .nil => []
  | .cons head tail => head :: tail.toList

/-- `Array.prototype.some` with a pure predicate. -/
def JSList.anyP (p : JSVal → Bool) : JSList → Bool
  | .nil => false
  | .cons head tail => p head || tail.anyP p

/-- JS truthiness of a value (`0`, the empty string, `null`, `undefined`,
`false` are falsy; objects and arrays are always truthy). -/
def truthy : JSVal → Bool
  | .undefined => false
  | .null => false
  | .bool b => b
  | .num n => n != 0
  | .str s => s != ""
  | .arr _ => true
  | .obj _ => true

/-- The JS `typeof` operator (note `typeof null = "object"`). -/
def typeofStr : JSVal → String
  | .undefined => "undefined"
  | .null => "object"
  | .bool _ => "boolean"
  | .num _ => "number"
  | .str _ => "string"
  | .arr _ => "object"
  | .obj _ => "object"

/-- Property read `v.k` for the property names the embedded code reads.
Missing properties and property reads on primitives yield `undefined`
(the code only reads properties of values it has checked to be truthy,
so the throwing reads on `null`/`undefined` are never reached). -/
def getField : JSVal → String → JSVal
  | .obj fields, k => (fields.lookup k).getD .undefined
  | _, _ => .undefined

/-- Key-presence test `"k" in v` for objects (the `in` operator tests
presence, not truthiness). -/
def objHasKey : JSVal → String → Bool
  | .obj fields, k => fields.hasKey k
  | _, _ => false

mutual

/-- JS string conversion as used by template literals.  Arrays stringify by
joining their elements with a comma, rendering `null`/`undefined` elements as
the empty string; plain objects stringify to `"[object Object]"`. -/
def jsToString : JSVal → String
  | .undefined => "undefined"
  | .null => "null"
  | .bool b => cond b "true" "false"
  | .num n => toString n
  | .str s => s
  | .arr xs => jsArrJoin xs
  | .obj _ => "[object Object]"

/-- Comma-joined rendering of array elements. -/
def jsArrJoin : JSList → String
  | .nil => ""
  | .cons x xs =>
    let s := match x with
      | .undefined => ""
      | .null => ""
      | v => jsToString v
    match xs with
    | .nil => s
    | .cons _ _ => s ++ "," ++ jsArrJoin xs

end

/-- Whether the character list `needle` occurs at the head of `hay`. -/
def charsLeadWith : List Char → List Char → Bool
  | _, [] => true
  | [], _ :: _ => false
  | c :: cs, d :: ds => c == d && charsLeadWith cs ds

/-- Whether the character list `needle` occurs contiguously in `hay`. -/
def charsContainSub : List Char → List Char → Bool
  | [], needle => needle.isEmpty
  | c :: cs, needle => charsLeadWith (c :: cs) needle || charsContainSub cs needle

/-- JS `String.prototype.includes` on two strings. -/
def strIncludes (s sub : String) : Bool :=
  charsContainSub s.data sub.data

/-- ASCII lowercasing of one character (agrees with JS `toLowerCase` on the
ASCII strings the analyzer compares). -/
def charLower (c : Char) : Char :=
  if 65 ≤ c.toNat && c.toNat ≤ 90 then Char.ofNat (c.toNat + 32) else c

/-- ASCII lowercasing of a string. -/
def strLower (s : String) : String :=
  String.mk (s.data.map charLower)

/-- The ambient browser state read by the embedded code: which globals are
defined and the values of the window / document / navigator properties that
`utils.isBrowser` and the `SuspectAnalyzer` inspect. -/
structure WindowEnv : Type where
  /-- `typeof window !== "undefined"` -/
  windowDefined : Bool
  /-- `typeof document !== "undefined"` -/
  documentDefined : Bool
  /-- `navigator.webdriver === true` -/
  navWebdriverIsTrue : Bool
  /-- `!!navigator.webdriver` -/
  navWebdriverTruthy : Bool
  /-- `window.outerHeight` -/
  outerHeight : Int
  /-- `!!window._phantom` -/
  phantomTruthy : Bool
  /-- `!!window.selenium` -/
  winSeleniumTruthy : Bool
  /-- `!!window.webdriver` -/
  winWebdriverTruthy : Bool
  /-- `!!document.selenium` -/
  docSeleniumTruthy : Bool
  /-- `!!document.webdriver` -/
  docWebdriverTruthy : Bool
  deriving DecidableEq, Repr

/-- `utils.isBrowser`: `typeof window !== "undefined" && typeof document !==
"undefined"`. -/
def isBrowser (env : WindowEnv) : Bool :=
  env.windowDefined && env.documentDefined

/-- Result of a JS computation that may raise (TypeError from applying a
string method to a non-string value). -/
inductive JSResult (α : Type) : Type where
  | ok (val : α) : JSResult α
  | err (msg : String) : JSResult α
  deriving DecidableEq

instance : Monad JSResult where
  pure := .ok
  bind m f := match m with
    | .ok a => f a
    | .err e => .err e

/-- `v.includes(needle)`: substring test on strings, strict-equality element
test on arrays, TypeError on anything else. -/
def jsIncludes (v : JSVal) (needle : String) : JSResult Bool :=
  match v with
  | .str s => .ok (strIncludes s needle)
  | .arr xs => .ok (xs.anyP (fun x => x == JSVal.str needle))
  | _ => .err "TypeError: includes is not a function"

/-- `v.toLowerCase()`: lowercasing on strings, TypeError otherwise. -/
def jsToLowerCase (v : JSVal) : JSResult String :=
  match v with
  | .str s => .ok (strLower s)
  | _ => .err "TypeError: toLowerCase is not a function"

/-- `Array.prototype.some` with a possibly-throwing predicate, evaluated
left to right with short-circuiting. -/
def someM {α : Type} (f : α → JSResult Bool) : List α → JSResult Bool
  | [] => .ok false
  | x :: xs => do
    let b ← f x
    if b then pure true else someM f xs

/-- The JS short-circuit disjunction on values: `a` if truthy, else `b`. -/
def jsOr (a b : JSVal) : JSVal :=
  if truthy a then a else b

/-! ## `src/utils.ts` -/

/-- JS `ToInt32`: the 32-bit wrap-around applied by the bitwise operators
(the shift and the self-conjunction in `simpleHash`). -/
def toInt32 (x : Int) : Int :=
  let m := x % 4294967296
  if m < 2147483648 then m else m - 4294967296

/-- One iteration of the `simpleHash` loop:
`hash = (hash << 5) - hash + char; hash = hash & hash`.
The shift by five wraps the shifted value to a signed 32-bit integer; the
subtraction and addition are exact (they stay far below 2^53); the
self-conjunction wraps the result back to a signed 32-bit integer. -/
def simpleHashStep (hash : Int) (char : Nat) : Int :=
  toInt32 (toInt32 (hash * 32) - hash + char)

/-- The accumulated signed 32-bit hash of `utils.simpleHash` before the final
`Math.abs`.  The early return for the empty string coincides with folding
over no characters.  Characters are taken as their code points, which agrees
with `charCodeAt` on the Basic Multilingual Plane. -/
def simpleHashRaw (s : String) : Int :=
  s.data.foldl (fun hash ch => simpleHashStep hash ch.toNat) 0

/-- `utils.simpleHash`: the rolling hash folded through `Math.abs`. -/
def simpleHash (s : String) : Nat :=
  (simpleHashRaw s).natAbs

/-- Hex digit characters: codes 48-57 for 0-9, 97-102 for a-f. -/
def hexDigit (n : Nat) : Char :=
  if n < 10 then Char.ofNat (48 + n) else Char.ofNat (87 + n)

/-- Digits of `n` in base 16, most significant first, prepended to `acc`;
`fuel` bounds the loop and any `fuel ≥ n` is enough. -/
def natToHexAux : Nat → Nat → List Char → List Char
  | 0, _, acc => acc
  | _ + 1, 0, acc => acc
  | fuel + 1, n + 1, acc =>
    natToHexAux fuel ((n + 1) / 16) (hexDigit ((n + 1) % 16) :: acc)

/-- JS `Number.prototype.toString(16)` for a non-negative integer: lowercase
hex digits, no leading zeros, and `"0"` for zero. -/
def natToHex (n : Nat) : String :=
  if n = 0 then "0" else String.mk (natToHexAux n n [])

/-- `b.toString(16).padStart(2, "0")` applied to one digest byte. -/
def byteToHex (b : Nat) : String :=
  let s := natToHex b
  if s.length < 2 then "0" ++ s else s

/-- Rendering a digest byte array as lowercase hex, two digits per byte
(the map-then-join with the empty separator is string concatenation). -/
def bytesToHex : List Nat → String
  | [] => ""
  | b :: bs => byteToHex b ++ bytesToHex bs

/-- Availability and behaviour of the Web Crypto API in the host runtime:
`available` models the check that `crypto` exists and exposes `subtle`, and
`digest` models the byte array produced by the SHA-256 digest call on the
UTF-8 encoding of the input. -/
structure CryptoEnv : Type where
  available : Bool
  digest : String → List Nat

/-- `utils.sha256`: renders the Web Crypto digest in lowercase hex when the
API is available, and otherwise falls back to the hex rendering of
`simpleHash(message)`. -/
def sha256 (env : CryptoEnv) (message : String) : String :=
  if env.available then
    bytesToHex (env.digest message)
  else
    natToHex (simpleHash message)

/-- JSON escaping of one character inside a string literal. -/
def jsonEscapeChar (c : Char) : String :=
  if c = '"' then "\\\""
  else if c = '\\' then "\\\\"
  else if c = '\n' then "\\n"
  else if c = '\r' then "\\r"
  else if c = '\t' then "\\t"
  else if c.toNat = 8 then "\\b"
  else if c.toNat = 12 then "\\f"
  else if c.toNat < 32 then
    "\\u00" ++ String.mk [hexDigit (c.toNat / 16), hexDigit (c.toNat % 16)]
  else String.singleton c

/-- JSON rendering of a string literal. -/
def jsonEscape (s : String) : String :=
  "\"" ++ String.join (s.data.map jsonEscapeChar) ++ "\""

mutual

/-- `JSON.stringify` of a value; `none` models the property being skipped
(the result `undefined`).  `utils.safeStringify` adds a circular-reference
replacer, which never fires on these inductive (hence acyclic) values, so on
them it coincides with plain `JSON.stringify`. -/
def jsonVal : JSVal → Option String
  | .undefined => none
  | .null => some "null"
  | .bool b => some (cond b "true" "false")
  | .num n => some (toString n)
  | .str s => some (jsonEscape s)
  | .arr xs => some ("[" ++ jsonArrElems xs ++ "]")
  | .obj fields => some ("\x7b" ++ jsonObjFields fields ++ "\x7d")

/-- Array elements, comma separated; `undefined` elements render as `null`. -/
def jsonArrElems : JSList → String
  | .nil => ""
  | .cons x xs =>
    let s := (jsonVal x).getD "null"
    match xs with
    | .nil => s
    | .cons _ _ => s ++ "," ++ jsonArrElems xs

/-- Object properties, comma separated; properties whose value stringifies to
`undefined` are skipped. -/
def jsonObjFields : JSFields → String
  | .nil => ""
  | .cons k v rest =>
    match jsonVal v with
    | none => jsonObjFields rest
    | some s =>
      let entry := jsonEscape k ++ ":" ++ s
      match rest with
      | .nil => entry
      | .cons _ _ _ =>
        let restStr := jsonObjFields rest
        if restStr = "" then entry else entry ++ "," ++ restStr

end

/-- `utils.safeStringify` applied to an object value (the only shape
`generate` passes). -/
def safeStringify (v : JSVal) : String :=
  (jsonVal v).getD "undefined"

/-! ## `src/suspect-analyzer.ts` -/

/-- A component mapping (a `Record` keyed by collector name): an
insertion-ordered association list, as produced by `generate`. -/
abbrev Components := List (String × JSVal)

/-- Read `components[k]`; a missing key reads as `undefined`. -/
def lookupComp (c : Components) (k : String) : JSVal :=
  (c.lookup k).getD .undefined

/-- One suspicion signal (`interface SuspectSignal`): type, severity in
0-10, description, and the detected flag. -/
structure SuspectSignal : Type where
  type : String
  severity : Nat
  description : String
  detected : Bool
  deriving DecidableEq, Repr

/-- The `details` record assembled by `SuspectAnalyzer.analyze`. -/
structure AnalysisDetails : Type where
  totalSignalsDetected : Nat
  highSeveritySignals : Nat
  automationDetected : Bool
  inconsistenciesFound : Bool
  deriving DecidableEq, Repr

/-- The result of `SuspectAnalyzer.analyze` (`interface SuspectAnalysis`). -/
structure SuspectAnalysis : Type where
  score : Nat
  signals : List SuspectSignal
  riskLevel : String
  details : AnalysisDetails
  deriving DecidableEq, Repr

/-- The expression `components.userAgent || ""`. -/
def uaOrEmpty (c : Components) : JSVal :=
  jsOr (lookupComp c "userAgent") (JSVal.str "")

/-- `SuspectAnalyzer.hasWebDriver`: window is defined and
`navigator.webdriver === true`. -/
def SuspectAnalyzer.hasWebDriver (env : WindowEnv) : Bool :=
  env.windowDefined && env.navWebdriverIsTrue

/-- `SuspectAnalyzer.isHeadless`: the user agent mentions HeadlessChrome or
PhantomJS, or the outer window height is zero. -/
def SuspectAnalyzer.isHeadless (env : WindowEnv) (c : Components) : JSResult Bool := do
  let ua := uaOrEmpty c
  let h₁ ← jsIncludes ua "HeadlessChrome"
  if h₁ then pure true
  else
    let h₂ ← jsIncludes ua "PhantomJS"
    if h₂ then pure true
    else pure (env.windowDefined && env.outerHeight == 0)

/-- `SuspectAnalyzer.hasPhantomSignatures`: the user agent mentions
PhantomJS, or the window `_phantom` global is set. -/
def SuspectAnalyzer.hasPhantomSignatures (env : WindowEnv) (c : Components) :
    JSResult Bool := do
  let p ← jsIncludes (uaOrEmpty c) "PhantomJS"
  if p then pure true
  else pure (env.windowDefined && env.phantomTruthy)

/-- `SuspectAnalyzer.hasSeleniumSignatures`: any of the selenium / webdriver
globals on window, document or navigator is truthy. -/
def SuspectAnalyzer.hasSeleniumSignatures (env : WindowEnv) : Bool :=
  if !env.windowDefined then false
  else
    env.winSeleniumTruthy || env.winWebdriverTruthy || env.docSeleniumTruthy ||
      env.docWebdriverTruthy || env.navWebdriverTruthy

/-- The `suspiciousCombinations` table of
`hasTimezoneLanguageInconsistency`. -/
def suspiciousCombinations : List (String × String) :=
  [("America/New_York", "zh-CN"), ("Europe/Paris", "ja-JP"), ("Asia/Tokyo", "es-ES")]

/-- `SuspectAnalyzer.hasTimezoneLanguageInconsistency`: some table entry has
its timezone contained in `components.timezone` and its language contained in
some element of the `components.language` array. -/
def SuspectAnalyzer.hasTimezoneLanguageInconsistency (c : Components) :
    JSResult Bool :=
  let timezone := lookupComp c "timezone"
  let language := lookupComp c "language"
  if !truthy timezone || !truthy language then pure false
  else
    someM
      (fun combo => do
        let t ← jsIncludes timezone combo.1
        if !t then pure false
        else
          match language with
          | .arr elems => someM (fun l => jsIncludes l combo.2) elems.toList
          | _ => pure false)
      suspiciousCombinations

/-- The `suspiciousResolutions` table of `hasScreenInconsistency`. -/
def suspiciousResolutions : List String :=
  ["1024x768", "800x600", "1280x720", "1920x1080"]

/-- `SuspectAnalyzer.hasScreenInconsistency`: the rendered
`width x height` template string is one of the suspicious resolutions and
the color depth is exactly 24. -/
def SuspectAnalyzer.hasScreenInconsistency (c : Components) : Bool :=
  let screen := lookupComp c "screen"
  if !truthy screen then false
  else
    let resolution :=
      jsToString (getField screen "width") ++ "x" ++
        jsToString (getField screen "height")
    suspiciousResolutions.contains resolution &&
      getField screen "colorDepth" == JSVal.num 24

/-- `SuspectAnalyzer.hasGenericCanvas`: a truthy string canvas component
shorter than 100 characters, or the sentinel `"no-canvas"`. -/
def SuspectAnalyzer.hasGenericCanvas (c : Components) : Bool :=
  match lookupComp c "canvas" with
  | .str s => if s == "" then false else decide (s.length < 100) || s == "no-canvas"
  | _ => false

/-- `SuspectAnalyzer.hasMissingAPIs`: more than one of the expected
userAgent / language / screen components is falsy or carries a truthy
`error` property. -/
def SuspectAnalyzer.hasMissingAPIs (c : Components) : Bool :=
  let expectedAPIs := ["userAgent", "language", "screen"]
  let missingAPIs := expectedAPIs.filter (fun api =>
    let v := lookupComp c api
    !truthy v || truthy (getField v "error"))
  missingAPIs.length > 1

/-- `SuspectAnalyzer.hasTooManyErrors`: more than three component values are
truthy objects with a truthy `error` property. -/
def SuspectAnalyzer.hasTooManyErrors (c : Components) : Bool :=
  ((c.map Prod.snd).filter (fun v =>
    truthy v && typeofStr v == "object" && truthy (getField v "error"))).length > 3

/-- The `suspiciousPatterns` table of `hasSuspiciousUserAgent`. -/
def suspiciousPatterns : List String :=
  ["HeadlessChrome", "PhantomJS", "bot", "crawler", "spider", "scraper"]

/-- `SuspectAnalyzer.hasSuspiciousUserAgent`: the lowercased user agent
contains one of the lowercased suspicious patterns. -/
def SuspectAnalyzer.hasSuspiciousUserAgent (c : Components) : JSResult Bool :=
  someM
    (fun pat => do
      let lower ← jsToLowerCase (uaOrEmpty c)
      pure (strIncludes lower (strLower pat)))
    suspiciousPatterns

/-- `SuspectAnalyzer.isTooStable`: every component value is truthy, free of a
truthy `error` property, and distinct from the sentinel `"unknown"`. -/
def SuspectAnalyzer.isTooStable (c : Components) : Bool :=
  let perfectComponents := ((c.map Prod.snd).filter (fun v =>
    truthy v && !truthy (getField v "error") && v != JSVal.str "unknown")).length
  perfectComponents == c.length

/-- The `botSignatures` table of `hasKnownBotSignature`. -/
def botSignatures : List String :=
  ["Googlebot", "Bingbot", "facebookexternalhit", "Twitterbot", "LinkedInBot",
    "WhatsApp", "python-requests", "curl/", "wget"]

/-- `SuspectAnalyzer.hasKnownBotSignature`: the user agent contains one of
the known bot signatures. -/
def SuspectAnalyzer.hasKnownBotSignature (c : Components) : JSResult Bool :=
  someM (fun signature => jsIncludes (uaOrEmpty c) signature) botSignatures

/-- `SuspectAnalyzer.calculateRiskLevel`: LOW below 30, MEDIUM below 70, HIGH
otherwise. -/
def SuspectAnalyzer.calculateRiskLevel (score : Nat) : String :=
  if score < 30 then "LOW" else if score < 70 then "MEDIUM" else "HIGH"

/-- `SuspectAnalyzer.checkAutomation`: the automation rule group (webdriver,
headless, phantom, selenium). -/
def SuspectAnalyzer.checkAutomation (env : WindowEnv) (c : Components) :
    JSResult (List SuspectSignal) := do
  let headless ← SuspectAnalyzer.isHeadless env c
  let phantom ← SuspectAnalyzer.hasPhantomSignatures env c
  pure
    [⟨"webdriver", 9, "WebDriver automation detected", SuspectAnalyzer.hasWebDriver env⟩,
     ⟨"headless", 8, "Headless browser detected", headless⟩,
     ⟨"phantom", 7, "PhantomJS signatures detected", phantom⟩,
     ⟨"selenium", 8, "Selenium signatures detected", SuspectAnalyzer.hasSeleniumSignatures env⟩]

/-- `SuspectAnalyzer.checkConsistency`: the consistency rule group
(timezone/language, screen, canvas). -/
def SuspectAnalyzer.checkConsistency (c : Components) :
    JSResult (List SuspectSignal) := do
  let tl ← SuspectAnalyzer.hasTimezoneLanguageInconsistency c
  pure
    [⟨"timezone_language", 5, "Timezone/language inconsistency", tl⟩,
     ⟨"screen_consistency", 6, "Screen resolution inconsistency",
       SuspectAnalyzer.hasScreenInconsistency c⟩,
     ⟨"generic_canvas", 4, "Canvas fingerprint too generic",
       SuspectAnalyzer.hasGenericCanvas c⟩]

/-- `SuspectAnalyzer.checkEnvironment`: the environment rule group (missing
APIs, collection errors, suspicious user agent). -/
def SuspectAnalyzer.checkEnvironment (c : Components) :
    JSResult (List SuspectSignal) := do
  let sua ← SuspectAnalyzer.hasSuspiciousUserAgent c
  pure
    [⟨"missing_apis", 6, "Missing browser APIs", SuspectAnalyzer.hasMissingAPIs c⟩,
     ⟨"collection_errors", 5, "Too many collection errors",
       SuspectAnalyzer.hasTooManyErrors c⟩,
     ⟨"suspicious_ua", 7, "Suspicious user agent", sua⟩]

/-- `SuspectAnalyzer.checkBotPatterns`: the bot-pattern rule group (too
perfect, known bot signature). -/
def SuspectAnalyzer.checkBotPatterns (c : Components) :
    JSResult (List SuspectSignal) := do
  let bot ← SuspectAnalyzer.hasKnownBotSignature c
  pure
    [⟨"too_perfect", 3, "Fingerprint too perfect/stable", SuspectAnalyzer.isTooStable c⟩,
     ⟨"bot_signature", 9, "Known bot signature detected", bot⟩]

/-- `SuspectAnalyzer.analyze`: run the four rule groups in order, keep the
detected signals, sum their severities times ten capped at 100, and band the
score into a risk level. -/
def SuspectAnalyzer.analyze (env : WindowEnv) (c : Components) :
    JSResult SuspectAnalysis := do
  let automationSignals ← SuspectAnalyzer.checkAutomation env c
  let consistencySignals ← SuspectAnalyzer.checkConsistency c
  let environmentSignals ← SuspectAnalyzer.checkEnvironment c
  let botSignals ← SuspectAnalyzer.checkBotPatterns c
  let signals := automationSignals ++ consistencySignals ++ environmentSignals ++ botSignals
  let detectedSignals := signals.filter (fun s => s.detected)
  let totalScore :=
    min 100 (detectedSignals.foldl (fun sum s => sum + s.severity * 10) 0)
  pure
    { score := totalScore
      signals := detectedSignals
      riskLevel := SuspectAnalyzer.calculateRiskLevel totalScore
      details :=
        { totalSignalsDetected := detectedSignals.length
          highSeveritySignals := (detectedSignals.filter (fun s => s.severity ≥ 8)).length
          automationDetected := automationSignals.any (fun s => s.detected)
          inconsistenciesFound := consistencySignals.any (fun s => s.detected) } }

/-! ## `src/fingerprint.ts` and `src/types.ts` -/

/-- `FingerprintOptions` after the constructor merge of `DEFAULT_OPTIONS`
with the caller options: the `DEFAULT_OPTIONS` values appear as field
defaults, every other field defaults to its JS undefined (falsy) reading. -/
structure GenOptions : Type where
  excludeUserAgent : Bool := false
  excludeLanguage : Bool := false
  excludeTimezone : Bool := false
  excludeScreenResolution : Bool := false
  excludePlugins : Bool := false
  excludeCanvas : Bool := false
  excludeWebGL : Bool := false
  excludeAudio : Bool := false
  excludeFonts : Bool := false
  excludeHardware : Bool := false
  excludeWebRTC : Bool := false
  excludeClientHints : Bool := false
  excludeStorage : Bool := false
  excludeBattery : Bool := false
  excludeConnection : Bool := false
  excludeTouch : Bool := false
  excludePermissions : Bool := false
  excludeMath : Bool := false
  excludeMediaDevices : Bool := false
  customData : Option JSFields := none
  allowUnstableData : Bool := false
  includeSuspectAnalysis : Bool := false
  timeout : Int := 5000
  parallel : Bool := true
  deriving DecidableEq

/-- `Fingerprint.initializeCollectors`: the registered collector names, in
the order the constructor pushes them, each gated on its exclusion flag. -/
def initializeCollectors (opts : GenOptions) : List String :=
  (if !opts.excludeUserAgent then ["userAgent"] else []) ++
  (if !opts.excludeLanguage then ["language"] else []) ++
  (if !opts.excludeTimezone then ["timezone"] else []) ++
  (if !opts.excludeScreenResolution then ["screen"] else []) ++
  (if !opts.excludePlugins then ["plugins"] else []) ++
  (if !opts.excludeCanvas then ["canvas"] else []) ++
  (if !opts.excludeWebGL then ["webgl"] else []) ++
  (if !opts.excludeAudio then ["audio"] else []) ++
  (if !opts.excludeFonts then ["fonts"] else []) ++
  (if !opts.excludeHardware then ["hardware"] else []) ++
  (if !opts.excludeWebRTC then ["webrtc"] else []) ++
  (if !opts.excludeClientHints then ["clientHints"] else []) ++
  (if !opts.excludeStorage then ["storage"] else []) ++
  (if !opts.excludeBattery then ["battery"] else []) ++
  (if !opts.excludeConnection then ["connection"] else []) ++
  (if !opts.excludeTouch then ["touch"] else []) ++
  (if !opts.excludePermissions then ["permissions"] else []) ++
  (if !opts.excludeMath then ["math"] else []) ++
  (if !opts.excludeMediaDevices then ["mediaDevices"] else [])

/-- The static per-collector entropy estimates (the `metadata.entropy`
constant of each collector class). -/
def collectorEntropy : List (String × Int) :=
  [("userAgent", 10), ("language", 5), ("timezone", 6), ("screen", 8),
   ("plugins", 6), ("canvas", 12), ("webgl", 15), ("audio", 10),
   ("fonts", 12), ("hardware", 8), ("webrtc", 8), ("clientHints", 10),
   ("storage", 4), ("battery", 3), ("connection", 4), ("touch", 4),
   ("permissions", 5), ("math", 6), ("mediaDevices", 5)]

/-- The per-collector entropy with the fallback of 2 used by
`calculateEntropy` when a collector declares no metadata. -/
def entropyOf (name : String) : Int :=
  (collectorEntropy.lookup name).getD 2

/-- The `unstableKeys` denylist of `Fingerprint.normalizeCustomData`. -/
def unstableKeys : List String :=
  ["timestamp", "time", "now", "date", "random", "rand", "nonce", "salt",
   "sessionId", "requestId", "uuid", "performance", "timing"]

/-- Case-insensitive hex digit (the `[0-9a-f]` atoms under the `i` flag). -/
def isHexDigitCI (c : Char) : Bool :=
  "0123456789abcdefABCDEF".data.contains c

/-- The canonical UUID shape matched by the normalizer regex: 36 characters
with dashes at positions 8, 13, 18 and 23 and case-insensitive hex digits
everywhere else. -/
def isUuidString (s : String) : Bool :=
  let cs := s.data
  cs.length == 36 &&
    cs.enum.all (fun p =>
      if p.1 == 8 || p.1 == 13 || p.1 == 18 || p.1 == 23 then p.2 == '-'
      else isHexDigitCI p.2)

/-- The value-based removal heuristic of `normalizeCustomData`: numbers
strictly between 1000000000000 and 9999999999999 (millisecond-epoch
magnitude) and strings of UUID shape. -/
def valueLooksUnstable : JSVal → Bool
  | .num n => decide (1000000000000 < n) && decide (n < 9999999999999)
  | .str s => isUuidString s
  | _ => false

/-- `Fingerprint.normalizeCustomData`: copy the mapping, delete the
denylisted keys, then delete every remaining entry whose value looks like a
timestamp or a UUID.  Deleting keys from a JS object preserves the order of
the others, so the two deletion passes are the two filters. -/
def normalizeCustomData (data : JSFields) : JSFields :=
  let afterKeyRemoval := data.filter (fun key _ => !unstableKeys.contains key)
  afterKeyRemoval.filter (fun _ val => !valueLooksUnstable val)

/-- `Fingerprint.hasError`: the sentinel strings `"unknown"` /
`"no-canvas"`, or a non-null object with an `error` key present. -/
def hasError (data : JSVal) : Bool :=
  data == JSVal.str "unknown" || data == JSVal.str "no-canvas" ||
    (typeofStr data == "object" && data != JSVal.null && objHasKey data "error")

/-- `Fingerprint.calculateEntropy`: sum the static entropy of every
registered collector whose component value is truthy and error free. -/
def calculateEntropy (collectors : List String) (components : Components) : Int :=
  collectors.foldl
    (fun totalEntropy name =>
      let data := lookupComp components name
      if truthy data && !hasError data then totalEntropy + entropyOf name
      else totalEntropy)
    0

/-- The JS number produced by the confidence arithmetic: NaN and the signed
infinities arise from dividing by zero, every other value is an integer
(the result of `Math.round`). -/
inductive JSNum : Type where
  | nan : JSNum
  | posInf : JSNum
  | negInf : JSNum
  | val (n : Int) : JSNum
  deriving DecidableEq, Repr

/-- Round-half-up of the exact rational `a / b` (`b ≠ 0`), computed after
normalizing the sign of the denominator: this is `Math.round` applied to the
quotient.  (`Math.round` rounds half-steps toward positive infinity.) -/
def roundHalfUpDiv (a b : Int) : Int :=
  let aa := if b < 0 then -a else a
  let bb := if b < 0 then -b else b
  (2 * aa + bb).fdiv (2 * bb)

/-- The expression `Math.round((confidence / maxConfidence) * 100)` in exact
arithmetic, where `ch` and `mh` carry twice the JS values of `confidence`
and `maxConfidence` (the accumulators step in halves, so twice their values
is always integral, and the quotient is unchanged by the common scaling).
A zero denominator with a zero numerator is the JS `0 / 0 = NaN`, which
`Math.round` passes through; a zero denominator with a nonzero numerator is
a signed infinity, also passed through. -/
def confidencePercent (ch mh : Int) : JSNum :=
  if mh = 0 then
    (if ch = 0 then .nan else if ch > 0 then .posInf else .negInf)
  else .val (roundHalfUpDiv (100 * ch) mh)

/-- The components record viewed as the JS object `generate` passes to
`safeStringify` (the mapping is built by property assignments in this
order). -/
def objOfComponents : Components → JSFields
  | [] => .nil
  | (k, v) :: rest => .cons k v (objOfComponents rest)

/-- The outcome of one collector `collect()` call inside `generate`: either
the awaited data or the message of the error it threw.  The collectors
themselves are external collaborators, so `generate` is parameterised over
their outcomes. -/
inductive CollectOutcome : Type where
  | value (data : JSVal) : CollectOutcome
  | thrown (msg : String) : CollectOutcome
  deriving DecidableEq

/-- One step of the result-processing loop of `generate`, carrying the
components built so far and the confidence accumulator in half-units (twice
its JS value).  A truthy error message stores the error-marker object; a
thrown error with an empty (falsy) message takes the success branch with
`data = null`; a collected value is stored as is and adds 1 (two half-units)
to the confidence accumulator when it is not an error marker. -/
def processResult (acc : Components × Int) (r : String × CollectOutcome) :
    Components × Int :=
  match r.2 with
  | .thrown msg =>
    if msg ≠ "" then
      (acc.1 ++ [(r.1, JSVal.obj (.cons "error" (.str msg) .nil))], acc.2)
    else
      (acc.1 ++ [(r.1, JSVal.null)],
        if !hasError JSVal.null then acc.2 + 2 else acc.2)
  | .value data =>
    (acc.1 ++ [(r.1, data)], if !hasError data then acc.2 + 2 else acc.2)

/-- The result-processing loop of `generate` over the settled collector
results, producing the components mapping and the confidence accumulator in
half-units. -/
def processResults (results : List (String × CollectOutcome)) : Components × Int :=
  results.foldl processResult ([], 0)

/-- A `FingerprintResult`. -/
structure FPResult : Type where
  fingerprint : String
  components : Components
  confidence : JSNum
  entropy : Int
  duration : Int
  version : String
  suspectAnalysis : Option SuspectAnalysis
  deriving DecidableEq

/-- An error escaping `generate`: the `FingerprintError` thrown before
collection (message and code), or a runtime TypeError escaping
`SuspectAnalyzer.analyze`. -/
inductive GenError : Type where
  | fpError (message : String) (code : String) : GenError
  | jsError (msg : String) : GenError
  deriving DecidableEq, Repr

/-- A finished `generate` call: a `FingerprintResult` or an error (a failed
call produces no result at all). -/
inductive GenOut : Type where
  | ok (res : FPResult) : GenOut
  | failure (e : GenError) : GenOut
  deriving DecidableEq

/-- The collection-and-merge phase of `generate`: settle all collector
results (in registration order, as `Promise.all` preserves it), process them
into the components mapping and the confidence accumulator (in half-units,
twice the JS value), then merge the normalized custom data, appending the
`custom` entry and half a point of confidence when it is non-empty. -/
def collectAndMerge (opts : GenOptions) (outcome : String → CollectOutcome) :
    Components × Int :=
  let collectors := initializeCollectors opts
  let results := collectors.map (fun name => (name, outcome name))
  let pc := processResults results
  match opts.customData with
  | none => pc
  | some customData =>
    let customDataToUse :=
      if !opts.allowUnstableData then normalizeCustomData customData
      else customData
    if customDataToUse.length > 0 then
      (pc.1 ++ [("custom", JSVal.obj customDataToUse)], pc.2 + 1)
    else pc

/-- The denominator `maxConfidence` of `generate`, in half-units: the
registered collector count plus one half when customData is configured
(whether or not anything survives normalization). -/
def maxConfidenceHalves (opts : GenOptions) : Int :=
  2 * ((initializeCollectors opts).length : Int) +
    (if opts.customData.isSome then 1 else 0)

/-- `Fingerprint.generate`.  Parameters beyond the options: the ambient
browser state, the crypto capability, the per-collector outcomes, and the
wall-clock duration measured by the `performance.now` pair.  The confidence
accumulator and `maxConfidence` are carried in half-units (twice their JS
values); `confidencePercent` divides them, which leaves the quotient, and
hence the rounded percentage, unchanged. -/
def generate (opts : GenOptions) (env : WindowEnv) (crypto : CryptoEnv)
    (outcome : String → CollectOutcome) (duration : Int) : GenOut :=
  if !isBrowser env then
    .failure (.fpError "Fingerprinting is only available in browser environments"
      "NOT_BROWSER")
  else
    let collectors := initializeCollectors opts
    let merged := collectAndMerge opts outcome
    let components := merged.1
    let confidencePercentage := confidencePercent merged.2 (maxConfidenceHalves opts)
    let entropy := calculateEntropy collectors components
    let dataString := safeStringify (JSVal.obj (objOfComponents components))
    let fingerprint := sha256 crypto dataString
    if opts.includeSuspectAnalysis then
      match SuspectAnalyzer.analyze env components with
      | .err e => .failure (.jsError e)
      | .ok sa =>
        .ok
          { fingerprint := fingerprint, components := components
            confidence := confidencePercentage, entropy := entropy
            duration := duration, version := "2.0.0"
            suspectAnalysis := some sa }
    else
      .ok
        { fingerprint := fingerprint, components := components
          confidence := confidencePercentage, entropy := entropy
          duration := duration, version := "2.0.0"
          suspectAnalysis := none }

/-! ## `src/collectors/base.ts`: the per-collector timeout machinery -/

/-- Possible temporal behaviour of one asynchronous collection: it settles
with a value after some delay, or it never settles. -/
inductive AsyncBehavior : Type where
  | resolvesAfter (ms : Int) (v : JSVal) : AsyncBehavior
  | neverResolves : AsyncBehavior
  deriving DecidableEq

/-- `AsyncBaseCollector.withTimeout`: `Promise.race` of the collection
against a timer that resolves with the fallback after `timeoutMs`.  The
result is the settling time and value; a race always settles. -/
def withTimeout (timeoutMs : Int) (b : AsyncBehavior) (fallback : JSVal) :
    Int × JSVal :=
  match b with
  | .resolvesAfter t v => if t ≤ timeoutMs then (t, v) else (timeoutMs, fallback)
  | .neverResolves => (timeoutMs, fallback)

/-- An unraced collection: settles exactly when the underlying work does,
and never settles (`none`) if the work never does. -/
def rawCollect (b : AsyncBehavior) : Option (Int × JSVal) :=
  match b with
  | .resolvesAfter t v => some (t, v)
  | .neverResolves => none

/-- The collectors whose `collect()` wraps its work in
`this.withTimeout(..., fallback)`: audio, webrtc, clientHints, battery and
mediaDevices.  The remaining fourteen collectors never call `withTimeout`
(storage and permissions are asynchronous but unraced; the rest are
synchronous). -/
def usesWithTimeout (name : String) : Bool :=
  ["audio", "webrtc", "clientHints", "battery", "mediaDevices"].contains name

/-- The timeout in force for a collector created by
`Fingerprint.initializeCollectors`: the `AsyncBaseCollector` field default of
5000.  The constructor stores `options.timeout` in `this.options` but never
calls `collector.setTimeout(...)`, and `generate` invokes `collect()`
directly, so the configured option does not reach any collector. -/
def collectorTimeoutInForce (_opts : GenOptions) : Int :=
  5000

/-- How one collector promise settles inside `generate`, given the temporal
behaviour of its underlying work: raced against the hard-wired timer when
the collector uses `withTimeout`, unraced otherwise (`none` means the
promise, and with it the `Promise.all` of the batch, never settles). -/
def effectiveCollect (opts : GenOptions) (name : String) (b : AsyncBehavior)
    (fallback : JSVal) : Option (Int × JSVal) :=
  if usesWithTimeout name then
    some (withTimeout (collectorTimeoutInForce opts) b fallback)
  else rawCollect b

/-! ## Shared helper definitions for the theorems -/

/-- An ordinary browser environment: window and document defined, none of
the automation markers set, a non-zero outer height. -/
def benignEnv : WindowEnv :=
  { windowDefined := true, documentDefined := true, navWebdriverIsTrue := false
    navWebdriverTruthy := false, outerHeight := 900, phantomTruthy := false
    winSeleniumTruthy := false, winWebdriverTruthy := false
    docSeleniumTruthy := false, docWebdriverTruthy := false }

/-- A host with no Web Crypto support: `sha256` takes the fallback path. -/
def noCrypto : CryptoEnv :=
  { available := false, digest := fun _ => [] }

/-- Projection of a finished `generate` call onto its confidence value. -/
def genConfidence : GenOut → Option JSNum
  | .ok r => some r.confidence
  | .failure _ => none

/-- Placeholder result used by `getOkResult` on the failure branch. -/
def defaultFPResult : FPResult :=
  { fingerprint := "", components := [], confidence := .nan, entropy := 0
    duration := 0, version := "", suspectAnalysis := none }

/-- The result of a successful `generate` call (placeholder on failure). -/
def getOkResult : GenOut → FPResult
  | .ok r => r
  | .failure _ => defaultFPResult

/-- Projection of an analyzer run onto its score and risk level. -/
def scoreOfRes : JSResult SuspectAnalysis → Option (Nat × String)
  | .ok a => some (a.score, a.riskLevel)
  | .err _ => none

/-! ## Supporting lemmas -/

/-! ## Concrete hosts, options and runs used by the theorems -/

/-- Options excluding every collector, with no custom data. -/
def allExcludedOptions : GenOptions :=
  { excludeUserAgent := true, excludeLanguage := true, excludeTimezone := true,
    excludeScreenResolution := true, excludePlugins := true, excludeCanvas := true,
    excludeWebGL := true, excludeAudio := true, excludeFonts := true,
    excludeHardware := true, excludeWebRTC := true, excludeClientHints := true,
    excludeStorage := true, excludeBattery := true, excludeConnection := true,
    excludeTouch := true, excludePermissions := true, excludeMath := true,
    excludeMediaDevices := true }

/-- The declared fallback of the battery collector: `{ supported: false }`. -/
def batteryFallback : JSVal :=
  .obj (.cons "supported" (.bool false) .nil)

/-- Lowercase hex digit characters. -/
def isLowerHexChar (c : Char) : Bool :=
  "0123456789abcdef".data.contains c

/-- A crypto host whose digest is 32 zero bytes, for the witness. -/
def zeroDigestCrypto : CryptoEnv :=
  { available := true, digest := fun _ => List.replicate 32 0 }

/-- A browser environment with `navigator.webdriver` set (an automation
controller present); everything else as in `benignEnv`. -/
def wdEnv : WindowEnv :=
  { benignEnv with navWebdriverIsTrue := true, navWebdriverTruthy := true }

/-- The environment of `benignEnv` but with `document` undefined — the one
window field `analyze` never reads. -/
def benignEnvNoDoc : WindowEnv :=
  { benignEnv with documentDefined := false }

/-- A components mapping in which every signal the analyzer inspects is
present, non-error and non-default, and for which the too-perfect rule is
the only one that fires. -/
def tooPerfectComponents : Components :=
  [("userAgent", .str "Mozilla/5.0 (Macintosh) AppleWebKit/537.36"),
   ("language", .arr (.cons (.str "fr-FR") .nil)),
   ("timezone", .str "Europe/Paris"),
   ("screen", .obj (.cons "width" (.num 1366) (.cons "height" (.num 768)
     (.cons "colorDepth" (.num 24) .nil)))),
   ("canvas", .str "0123456789012345678901234567890123456789012345678901234567890123456789012345678901234567890123456789")]

/-- The concrete analysis `analyze` returns on the empty mapping in a benign
browser (missing-APIs and too-perfect fire). -/
def emptyMapAnalysis : SuspectAnalysis :=
  { score := 90
    signals := [⟨"missing_apis", 6, "Missing browser APIs", true⟩,
                ⟨"too_perfect", 3, "Fingerprint too perfect/stable", true⟩]
    riskLevel := "HIGH"
    details := { totalSignalsDetected := 2, highSeveritySignals := 0
                 automationDetected := false, inconsistenciesFound := false } }

/-- A components mapping whose user agent names HeadlessChrome. -/
def headlessComponents : Components :=
  [("userAgent", .str "Mozilla/5.0 HeadlessChrome/120.0")]

/-- The concrete analysis returned on `headlessComponents` in a benign
browser. -/
def headlessAnalysis : SuspectAnalysis :=
  { score := 100
    signals := [⟨"headless", 8, "Headless browser detected", true⟩,
                ⟨"missing_apis", 6, "Missing browser APIs", true⟩,
                ⟨"suspicious_ua", 7, "Suspicious user agent", true⟩,
                ⟨"too_perfect", 3, "Fingerprint too perfect/stable", true⟩]
    riskLevel := "HIGH"
    details := { totalSignalsDetected := 4, highSeveritySignals := 1
                 automationDetected := true, inconsistenciesFound := false } }

/-- The component value `generate` records for one collector outcome: the
collected data, the error marker for a throw with a truthy message, and
`null` for a throw whose message is empty (falsy). -/
def componentOf : CollectOutcome → JSVal
  | .thrown msg => if msg ≠ "" then .obj (.cons "error" (.str msg) .nil) else .null
  | .value v => v

/-- Whether one collector outcome bumps the confidence accumulator: a
collected value that is not an error marker, or a throw with an empty
message (whose `null` data passes the error check). -/
def contributes : CollectOutcome → Bool
  | .thrown msg => msg == ""
  | .value v => !hasError v

/-- Whether the collector threw. -/
def isThrown : CollectOutcome → Bool
  | .thrown _ => true
  | .value _ => false

/-- The nineteen collector names, in registration order. -/
def allCollectorNames : List String :=
  ["userAgent", "language", "timezone", "screen", "plugins", "canvas",
   "webgl", "audio", "fonts", "hardware", "webrtc", "clientHints", "storage",
   "battery", "connection", "touch", "permissions", "math", "mediaDevices"]

/-- The per-collector condition of the amended isolation statement: a throw
carries a non-empty message, a collected value is not an error marker. -/
def outcomeAdmissible : CollectOutcome → Bool
  | .thrown msg => msg != ""
  | .value v => !hasError v

/-- Options registering only the userAgent collector. -/
def onlyUAOptions : GenOptions :=
  { excludeLanguage := true, excludeTimezone := true,
    excludeScreenResolution := true, excludePlugins := true,
    excludeCanvas := true, excludeWebGL := true, excludeAudio := true,
    excludeFonts := true, excludeHardware := true, excludeWebRTC := true,
    excludeClientHints := true, excludeStorage := true, excludeBattery := true,
    excludeConnection := true, excludeTouch := true, excludePermissions := true,
    excludeMath := true, excludeMediaDevices := true }

/-- Options registering the userAgent and language collectors. -/
def uaLangOptions : GenOptions :=
  { onlyUAOptions with excludeLanguage := false }

/-- Outcomes in which userAgent resolves and language throws. -/
def uaLangOutcome : String → CollectOutcome :=
  fun name => if name = "userAgent" then .value (.str "Mozilla")
    else .thrown "boom"

/-- Options registering only userAgent, with custom data consisting of a
single timestamp entry that normalization removes entirely. -/
def onlyUATimestampOptions : GenOptions :=
  { onlyUAOptions with
    customData := some (.cons "timestamp" (.num 1699999999999) .nil) }

/-- The outcome used by the C3 runs: the one collector resolves normally. -/
def uaOnlyOutcome : String → CollectOutcome :=
  fun _ => .value (.str "Mozilla")

/-! ## Theorems -/

theorem jsResult_bind_ok {α β : Type} (a : α) (f : α → JSResult β) :
    (JSResult.ok a >>= f) = f a := rfl

theorem jsResult_bind_err {α β : Type} (e : String) (f : α → JSResult β) :
    (JSResult.err e >>= f : JSResult β) = .err e := rfl

theorem jsfields_filter_filter (p q : String → JSVal → Bool) :
    (l : JSFields) → (l.filter p).filter q = l.filter (fun k v => p k v && q k v)
  | .nil => rfl
  | .cons k v t => by
    by_cases hp : p k v <;> by_cases hq : q k v <;>
      simp [JSFields.filter, hp, hq, jsfields_filter_filter p q t]

theorem jsfields_filter_idem (p : String → JSVal → Bool) :
    (l : JSFields) → (l.filter p).filter p = l.filter p
  | .nil => rfl
  | .cons k v t => by
    by_cases hp : p k v <;>
      simp [JSFields.filter, hp, jsfields_filter_idem p t]

theorem normalizeCustomData_eq_filter (d : JSFields) :
    normalizeCustomData d =
      d.filter (fun k v => !unstableKeys.contains k && !valueLooksUnstable v) := by
  unfold normalizeCustomData
  exact jsfields_filter_filter _ _ d

/-- C9: the Custom-Data Normalizer is idempotent: normalizing an
already-normalized mapping returns it unchanged. -/
theorem normalizeCustomData_idempotent (d : JSFields) :
    normalizeCustomData (normalizeCustomData d) = normalizeCustomData d := by
  rw [normalizeCustomData_eq_filter (normalizeCustomData d),
    normalizeCustomData_eq_filter d]
  exact jsfields_filter_idem _ d

/-- C7: when the host is not a browser environment, `generate` fails fast
with the NOT_BROWSER `FingerprintError`, produces no result at all, and its
outcome does not depend on the collectors (none is invoked): two calls with
arbitrary, different collector outcomes and durations fail identically. -/
theorem generate_not_browser_fails_fast (opts : GenOptions) (env : WindowEnv)
    (crypto : CryptoEnv) (o₁ o₂ : String → CollectOutcome) (d₁ d₂ : Int)
    (h : isBrowser env = false) :
    generate opts env crypto o₁ d₁ =
      GenOut.failure (GenError.fpError
        "Fingerprinting is only available in browser environments" "NOT_BROWSER") ∧
    generate opts env crypto o₁ d₁ = generate opts env crypto o₂ d₂ := by
  constructor <;> simp [generate, h]

/-- C7 witness: a host without window and document fails exactly this way. -/
theorem generate_not_browser_fails_fast_witness :
    generate {} { benignEnv with windowDefined := false, documentDefined := false }
        noCrypto (fun _ => .value .null) 0 =
      GenOut.failure (GenError.fpError
        "Fingerprinting is only available in browser environments" "NOT_BROWSER") :=
  (generate_not_browser_fails_fast {}
    { benignEnv with windowDefined := false, documentDefined := false }
    noCrypto (fun _ => .value .null) (fun _ => .value .null) 0 0 (by decide)).1

/-- C10: with every collector excluded and no customData, the denominator
`maxConfidence` is zero, and a `generate` call in a browser still succeeds
but returns the JS `0 / 0`: confidence is NaN, not a number in 0-100 and not
a default 0. -/
theorem generate_all_excluded_confidence_nan :
    initializeCollectors allExcludedOptions = [] ∧
    ∀ (env : WindowEnv) (crypto : CryptoEnv) (o : String → CollectOutcome) (d : Int),
      isBrowser env = true →
      genConfidence (generate allExcludedOptions env crypto o d) = some JSNum.nan := by
  refine ⟨rfl, fun env crypto o d h => ?_⟩
  simp [generate, h, genConfidence, allExcludedOptions, initializeCollectors,
    collectAndMerge, maxConfidenceHalves, processResults, confidencePercent]

/-- C10 witness: the NaN confidence at a concrete browser host. -/
theorem generate_all_excluded_confidence_nan_witness :
    genConfidence (generate allExcludedOptions benignEnv noCrypto
      (fun _ => .value .null) 0) = some JSNum.nan :=
  generate_all_excluded_confidence_nan.2 benignEnv noCrypto
    (fun _ => .value .null) 0 (by decide)

/-- C8: the `timeout` option is dead and not every collector is raced.  With
`timeout: 100` configured, the timeout in force on every collector is still
the hard-wired `AsyncBaseCollector` default of 5000, so a battery collector
whose work never settles falls back only at 5000 ms, not at the configured
100 ms; and a storage collector whose work never settles never falls back at
all (its promise, and with it the whole batch, never settles). -/
theorem collector_timeout_evaluation :
    collectorTimeoutInForce { timeout := 100 } = 5000 ∧
    effectiveCollect { timeout := 100 } "battery" .neverResolves batteryFallback =
      some (5000, batteryFallback) ∧
    effectiveCollect { timeout := 100 } "storage" .neverResolves (.obj .nil) =
      none := by
  refine ⟨rfl, rfl, rfl⟩

theorem hexDigit_isLowerHex : ∀ m : Nat, m < 16 → isLowerHexChar (hexDigit m) = true := by
  decide

theorem natToHexAux_length_le (k : Nat) :
    ∀ (fuel n : Nat) (acc : List Char), n < 16 ^ k → n ≤ fuel →
      (natToHexAux fuel n acc).length ≤ k + acc.length := by
  induction k with
  | zero =>
    intro fuel n acc hn _
    interval_cases n
    cases fuel <;> simp [natToHexAux]
  | succ k ih =>
    intro fuel n acc hn hfuel
    match n with
    | 0 => cases fuel <;> simp [natToHexAux]
    | m + 1 =>
      match fuel, hfuel with
      | fuel + 1, hfuel =>
        have hdivlt : (m + 1) / 16 < m + 1 := Nat.div_lt_self (by omega) (by norm_num)
        have hrec := ih fuel ((m + 1) / 16) (hexDigit ((m + 1) % 16) :: acc)
          (by
            rw [Nat.div_lt_iff_lt_mul (by norm_num)]
            calc m + 1 < 16 ^ (k + 1) := hn
            _ = 16 ^ k * 16 := by ring)
          (by omega)
        calc (natToHexAux (fuel + 1) (m + 1) acc).length
            = (natToHexAux fuel ((m + 1) / 16) (hexDigit ((m + 1) % 16) :: acc)).length := by
              simp [natToHexAux]
        _ ≤ k + (hexDigit ((m + 1) % 16) :: acc).length := hrec
        _ = k + 1 + acc.length := by simp; omega

theorem natToHexAux_length_ge :
    ∀ (fuel n : Nat) (acc : List Char), acc.length ≤ (natToHexAux fuel n acc).length := by
  intro fuel
  induction fuel with
  | zero => intro n acc; simp [natToHexAux]
  | succ fuel ih =>
    intro n acc
    match n with
    | 0 => simp [natToHexAux]
    | m + 1 =>
      calc acc.length ≤ (hexDigit ((m + 1) % 16) :: acc).length := by simp
      _ ≤ _ := ih ((m + 1) / 16) _

theorem natToHexAux_chars :
    ∀ (fuel n : Nat) (acc : List Char), (∀ c ∈ acc, isLowerHexChar c = true) →
      ∀ c ∈ natToHexAux fuel n acc, isLowerHexChar c = true := by
  intro fuel
  induction fuel with
  | zero => intro n acc hacc; simpa [natToHexAux] using hacc
  | succ fuel ih =>
    intro n acc hacc
    match n with
    | 0 => simpa [natToHexAux] using hacc
    | m + 1 =>
      refine ih ((m + 1) / 16) _ ?_
      intro c hc
      rcases List.mem_cons.mp hc with h | h
      · subst h; exact hexDigit_isLowerHex _ (Nat.mod_lt _ (by norm_num))
      · exact hacc c h

theorem natToHex_length_pos (n : Nat) : 1 ≤ (natToHex n).length := by
  unfold natToHex
  by_cases h : n = 0
  · simp only [h, if_true, if_pos]; decide
  · simp only [h, if_false]
    match n, h with
    | m + 1, _ =>
      show 1 ≤ (natToHexAux (m + 1) (m + 1) []).length
      calc 1 = (hexDigit ((m + 1) % 16) :: ([] : List Char)).length := by simp
      _ ≤ _ := natToHexAux_length_ge m ((m + 1) / 16) _

theorem natToHex_length_le (k n : Nat) (hn : n < 16 ^ k) (hk : 1 ≤ k) :
    (natToHex n).length ≤ k := by
  unfold natToHex
  by_cases h : n = 0
  · simpa [h] using hk
  · simp only [h, if_false]
    simpa using natToHexAux_length_le k n n [] hn (Nat.le_refl n)

theorem natToHex_chars (n : Nat) :
    ∀ c ∈ (natToHex n).data, isLowerHexChar c = true := by
  unfold natToHex
  by_cases h : n = 0
  · simp [h, isLowerHexChar]
  · simp only [h, if_false]
    exact natToHexAux_chars n n [] (by simp)

theorem toInt32_bounds (x : Int) :
    -2147483648 ≤ toInt32 x ∧ toInt32 x < 2147483648 := by
  unfold toInt32
  have h₁ : 0 ≤ x % 4294967296 := Int.emod_nonneg x (by norm_num)
  have h₂ : x % 4294967296 < 4294967296 := Int.emod_lt_of_pos x (by norm_num)
  by_cases h : x % 4294967296 < 2147483648 <;> simp [h] <;> omega

theorem simpleHashRaw_bounds (s : String) :
    -2147483648 ≤ simpleHashRaw s ∧ simpleHashRaw s < 2147483648 := by
  unfold simpleHashRaw
  have main : ∀ (l : List Char) (h : Int),
      -2147483648 ≤ h ∧ h < 2147483648 →
      -2147483648 ≤ l.foldl (fun hash ch => simpleHashStep hash ch.toNat) h ∧
        l.foldl (fun hash ch => simpleHashStep hash ch.toNat) h < 2147483648 := by
    intro l
    induction l with
    | nil => intro h hh; simpa using hh
    | cons c cs ih =>
      intro h _
      exact ih (simpleHashStep h c.toNat) (toInt32_bounds _)
  exact main s.data 0 (by norm_num)

theorem simpleHash_le (s : String) : simpleHash s ≤ 2147483648 := by
  have h := simpleHashRaw_bounds s
  unfold simpleHash
  omega

theorem byteToHex_length (b : Nat) (hb : b < 256) : (byteToHex b).length = 2 := by
  unfold byteToHex
  have hle : (natToHex b).length ≤ 2 :=
    natToHex_length_le 2 b (by norm_num; omega) (by norm_num)
  have hge : 1 ≤ (natToHex b).length := natToHex_length_pos b
  by_cases h : (natToHex b).length < 2
  · simp only [h, if_pos]
    rw [String.length_append]
    have h1 : (natToHex b).length = 1 := by omega
    rw [h1]
    decide
  · simp only [h, if_neg, if_false]
    omega

theorem byteToHex_chars (b : Nat) :
    ∀ c ∈ (byteToHex b).data, isLowerHexChar c = true := by
  unfold byteToHex
  by_cases h : (natToHex b).length < 2 <;> simp only [h, if_pos, if_neg, if_false]
  · intro c hc
    rw [String.data_append] at hc
    rcases List.mem_append.mp hc with h' | h'
    · simp only [show ("0" : String).data = ['0'] from rfl, List.mem_singleton] at h'
      subst h'; decide
    · exact natToHex_chars b c h'
  · exact natToHex_chars b

theorem bytesToHex_length :
    ∀ bs : List Nat, (∀ b ∈ bs, b < 256) → (bytesToHex bs).length = 2 * bs.length := by
  intro bs
  induction bs with
  | nil => intro _; rfl
  | cons b rest ih =>
    intro hb
    show (byteToHex b ++ bytesToHex rest).length = _
    rw [String.length_append, byteToHex_length b (hb b (by simp)),
      ih (fun x hx => hb x (by simp [hx]))]
    simp [List.length_cons]
    ring

theorem bytesToHex_chars :
    ∀ bs : List Nat, ∀ c ∈ (bytesToHex bs).data, isLowerHexChar c = true := by
  intro bs
  induction bs with
  | nil => intro c hc; simp [bytesToHex] at hc
  | cons b rest ih =>
    intro c hc
    rw [show bytesToHex (b :: rest) = byteToHex b ++ bytesToHex rest from rfl,
      String.data_append] at hc
    rcases List.mem_append.mp hc with h' | h'
    · exact byteToHex_chars b c h'
    · exact ih c h'

/-- C1 counterexample: the fallback path of `sha256` is not fixed-length.
With no crypto API, the empty string hashes to the one-character string and
the one-character string to a two-character string. -/
theorem sha256_fallback_not_fixed_length :
    (sha256 noCrypto "").length = 1 ∧ (sha256 noCrypto "a").length = 2 ∧
    ¬ ∀ s₁ s₂ : String, (sha256 noCrypto s₁).length = (sha256 noCrypto s₂).length :=
  ⟨by decide, by decide, fun h => absurd (h "" "a") (by decide)⟩

/-- C1 (amended): `sha256` always returns a lowercase hex string on both
paths.  The primary path (Web Crypto available, 32 digest bytes) returns a
fixed-length string of 64 hex characters; the fallback path (rolling hash,
absolute value, hex rendering) returns a deterministic lowercase hex string
whose length varies between 1 and 8 characters — it is stable and
reproducible (a pure function of the input) but not fixed-length. -/
theorem sha256_hex_string_output :
    (∀ (env : CryptoEnv) (msg : String), env.available = true →
      (env.digest msg).length = 32 → (∀ b ∈ env.digest msg, b < 256) →
      (sha256 env msg).length = 64 ∧
        ∀ c ∈ (sha256 env msg).data, isLowerHexChar c = true) ∧
    (∀ (env : CryptoEnv) (msg : String), env.available = false →
      (1 ≤ (sha256 env msg).length ∧ (sha256 env msg).length ≤ 8) ∧
        ∀ c ∈ (sha256 env msg).data, isLowerHexChar c = true) := by
  constructor
  · intro env msg hav hlen hbytes
    unfold sha256
    rw [hav]
    simp only [if_pos]
    constructor
    · rw [bytesToHex_length (env.digest msg) hbytes, hlen]
    · exact bytesToHex_chars (env.digest msg)
  · intro env msg hav
    unfold sha256
    rw [hav]
    simp only [Bool.false_eq_true, if_false]
    refine ⟨⟨natToHex_length_pos _, ?_⟩, natToHex_chars _⟩
    exact natToHex_length_le 8 (simpleHash msg)
      (by have := simpleHash_le msg; norm_num; omega) (by norm_num)

/-- C1 witness: both parts of the amended statement at concrete hosts. -/
theorem sha256_hex_string_output_witness :
    (sha256 zeroDigestCrypto "x").length = 64 ∧
    (1 ≤ (sha256 noCrypto "x").length ∧ (sha256 noCrypto "x").length ≤ 8) :=
  ⟨(sha256_hex_string_output.1 zeroDigestCrypto "x" rfl (by decide) (by decide)).1,
   (sha256_hex_string_output.2 noCrypto "x" rfl).1⟩

theorem jsResult_pure {α : Type} (a : α) : (pure a : JSResult α) = .ok a := rfl

/-- C4 counterexample: two `analyze` calls on the SAME components mapping
(the empty one) return different analyses — one host has
`navigator.webdriver` set, the other not — so `analyze` is not a pure
function of its components argument alone. -/
theorem analyze_depends_on_global_state :
    scoreOfRes (SuspectAnalyzer.analyze wdEnv []) = some (100, "HIGH") ∧
    scoreOfRes (SuspectAnalyzer.analyze benignEnv []) = some (90, "HIGH") ∧
    SuspectAnalyzer.analyze wdEnv [] ≠ SuspectAnalyzer.analyze benignEnv [] :=
  ⟨by decide, by decide, by decide⟩

/-- C4 (amended): `analyze` is a pure function of its components argument
and the ambient window state it reads (`navigator.webdriver`,
`window.outerHeight`, the phantom / selenium / webdriver globals): two calls
agreeing on the components and on those window fields return equal analyses,
and no other state — in particular nothing carried across runs — can
influence the result.  (Whether `document` is defined is not read.) -/
theorem analyze_reads_only_window_fields (e₁ e₂ : WindowEnv) (c : Components)
    (h₁ : e₁.windowDefined = e₂.windowDefined)
    (h₂ : e₁.navWebdriverIsTrue = e₂.navWebdriverIsTrue)
    (h₃ : e₁.navWebdriverTruthy = e₂.navWebdriverTruthy)
    (h₄ : e₁.outerHeight = e₂.outerHeight)
    (h₅ : e₁.phantomTruthy = e₂.phantomTruthy)
    (h₆ : e₁.winSeleniumTruthy = e₂.winSeleniumTruthy)
    (h₇ : e₁.winWebdriverTruthy = e₂.winWebdriverTruthy)
    (h₈ : e₁.docSeleniumTruthy = e₂.docSeleniumTruthy)
    (h₉ : e₁.docWebdriverTruthy = e₂.docWebdriverTruthy) :
    SuspectAnalyzer.analyze e₁ c = SuspectAnalyzer.analyze e₂ c := by
  obtain ⟨w₁, d₁, a₁, b₁, o₁, p₁, s₁, t₁, u₁, v₁⟩ := e₁
  obtain ⟨w₂, d₂, a₂, b₂, o₂, p₂, s₂, t₂, u₂, v₂⟩ := e₂
  simp only at h₁ h₂ h₃ h₄ h₅ h₆ h₇ h₈ h₉
  subst h₁ h₂ h₃ h₄ h₅ h₆ h₇ h₈ h₉
  rfl

/-- C4 witness: the amended purity theorem applied to two concrete
environments differing only in the unread field. -/
theorem analyze_reads_only_window_fields_witness :
    SuspectAnalyzer.analyze benignEnv [] = SuspectAnalyzer.analyze benignEnvNoDoc [] :=
  analyze_reads_only_window_fields benignEnv benignEnvNoDoc []
    rfl rfl rfl rfl rfl rfl rfl rfl rfl

/-- C5: whenever `SuspectAnalyzer.analyze` returns, its score is at most 100
(it is a `Nat`, hence at least 0: the score lies in the interval 0-100); and
on a mapping where every signal is present, non-error, and the too-perfect
rule is the only detected one, the score is exactly 3 × 10 = 30 and the risk
level is MEDIUM — the score-30 boundary falls on the MEDIUM side. -/
theorem analyze_score_bounded_and_boundary :
    (∀ (env : WindowEnv) (c : Components) (a : SuspectAnalysis),
      SuspectAnalyzer.analyze env c = .ok a → a.score ≤ 100) ∧
    scoreOfRes (SuspectAnalyzer.analyze benignEnv tooPerfectComponents) =
      some (30, "MEDIUM") := by
  constructor
  · intro env c a h
    unfold SuspectAnalyzer.analyze at h
    rcases h₁ : SuspectAnalyzer.checkAutomation env c with l₁ | e₁ <;> rw [h₁] at h
    case err => rw [jsResult_bind_err] at h; exact (JSResult.noConfusion h)
    rw [jsResult_bind_ok] at h
    rcases h₂ : SuspectAnalyzer.checkConsistency c with l₂ | e₂ <;> rw [h₂] at h
    case err => rw [jsResult_bind_err] at h; exact (JSResult.noConfusion h)
    rw [jsResult_bind_ok] at h
    rcases h₃ : SuspectAnalyzer.checkEnvironment c with l₃ | e₃ <;> rw [h₃] at h
    case err => rw [jsResult_bind_err] at h; exact (JSResult.noConfusion h)
    rw [jsResult_bind_ok] at h
    rcases h₄ : SuspectAnalyzer.checkBotPatterns c with l₄ | e₄ <;> rw [h₄] at h
    case err => rw [jsResult_bind_err] at h; exact (JSResult.noConfusion h)
    rw [jsResult_bind_ok, jsResult_pure] at h
    injection h with h'
    subst h'
    exact Nat.min_le_left 100 _
  · decide

/-- C5 witness: the bound applied at a concrete run whose hypothesis holds
by evaluation. -/
theorem analyze_score_bounded_witness :
    SuspectAnalyzer.analyze benignEnv [] = .ok emptyMapAnalysis ∧
    emptyMapAnalysis.score ≤ 100 :=
  ⟨by decide,
   analyze_score_bounded_and_boundary.1 benignEnv [] emptyMapAnalysis (by decide)⟩

/-- C6: on every components mapping whose `userAgent` value is a string
containing "HeadlessChrome", whenever `analyze` returns, its detected
signals include a "headless" `SuspectSignal` with severity 8, and that
signal is one produced by the automation rule group (`checkAutomation`) —
the embedded `SuspectSignal` record carries no category field, so membership
in the automation group is what realizes the category "automation". -/
theorem analyze_headless_signal (env : WindowEnv) (c : Components) (ua : String)
    (a : SuspectAnalysis)
    (hua : lookupComp c "userAgent" = JSVal.str ua)
    (hinc : strIncludes ua "HeadlessChrome" = true)
    (h : SuspectAnalyzer.analyze env c = .ok a) :
    ∃ s ∈ a.signals, s.type = "headless" ∧ s.severity = 8 ∧ s.detected = true ∧
      ∃ l, SuspectAnalyzer.checkAutomation env c = .ok l ∧ s ∈ l := by
  have hne : ua ≠ "" := by
    intro hcontra
    rw [hcontra] at hinc
    exact absurd hinc (by decide)
  have hUAOr : uaOrEmpty c = .str ua := by
    unfold uaOrEmpty jsOr
    rw [hua]
    simp [truthy, hne]
  have hHead : SuspectAnalyzer.isHeadless env c = .ok true := by
    unfold SuspectAnalyzer.isHeadless
    rw [hUAOr]
    simp [jsIncludes, hinc, jsResult_bind_ok, jsResult_pure]
  rcases hCA : SuspectAnalyzer.checkAutomation env c with l₁ | e₁
  case err =>
    unfold SuspectAnalyzer.analyze at h
    rw [hCA, jsResult_bind_err] at h
    exact (JSResult.noConfusion h)
  have hSig : (⟨"headless", 8, "Headless browser detected", true⟩ : SuspectSignal) ∈ l₁ ∧
      l₁.length = 4 := by
    unfold SuspectAnalyzer.checkAutomation at hCA
    rw [hHead, jsResult_bind_ok] at hCA
    rcases hPh : SuspectAnalyzer.hasPhantomSignatures env c with pb | e <;>
      rw [hPh] at hCA
    case err => rw [jsResult_bind_err] at hCA; exact (JSResult.noConfusion hCA)
    rw [jsResult_bind_ok, jsResult_pure] at hCA
    injection hCA with h'
    subst h'
    exact ⟨by simp, rfl⟩
  unfold SuspectAnalyzer.analyze at h
  rw [hCA, jsResult_bind_ok] at h
  rcases h₂ : SuspectAnalyzer.checkConsistency c with l₂ | e₂ <;> rw [h₂] at h
  case err => rw [jsResult_bind_err] at h; exact (JSResult.noConfusion h)
  rw [jsResult_bind_ok] at h
  rcases h₃ : SuspectAnalyzer.checkEnvironment c with l₃ | e₃ <;> rw [h₃] at h
  case err => rw [jsResult_bind_err] at h; exact (JSResult.noConfusion h)
  rw [jsResult_bind_ok] at h
  rcases h₄ : SuspectAnalyzer.checkBotPatterns c with l₄ | e₄ <;> rw [h₄] at h
  case err => rw [jsResult_bind_err] at h; exact (JSResult.noConfusion h)
  rw [jsResult_bind_ok, jsResult_pure] at h
  injection h with h'
  subst h'
  refine ⟨⟨"headless", 8, "Headless browser detected", true⟩, ?_, rfl, rfl, rfl,
    l₁, rfl, hSig.1⟩
  simp only [List.mem_filter, List.mem_append]
  exact ⟨Or.inl (Or.inl (Or.inl hSig.1)), trivial⟩

/-- C6 witness: the theorem applied at a concrete HeadlessChrome run, every
hypothesis discharged by evaluation. -/
theorem analyze_headless_signal_witness :
    ∃ s ∈ headlessAnalysis.signals,
      s.type = "headless" ∧ s.severity = 8 ∧ s.detected = true ∧
      ∃ l, SuspectAnalyzer.checkAutomation benignEnv headlessComponents = .ok l ∧
        s ∈ l :=
  analyze_headless_signal benignEnv headlessComponents
    "Mozilla/5.0 HeadlessChrome/120.0" headlessAnalysis
    (by decide) (by decide) (by decide)

/-! ## Supporting lemmas about `generate` -/

theorem processResults_go (rs : List (String × CollectOutcome)) :
    ∀ (acc : Components) (q : Int),
      rs.foldl processResult (acc, q) =
        (acc ++ rs.map (fun r => (r.1, componentOf r.2)),
          q + 2 * ((rs.filter (fun r => contributes r.2)).length : Int)) := by
  induction rs with
  | nil => intro acc q; simp
  | cons r rest ih =>
    intro acc q
    obtain ⟨name, o⟩ := r
    cases o with
    | thrown msg =>
      by_cases hm : msg = ""
      · subst hm
        rw [List.foldl_cons]
        rw [show processResult (acc, q) (name, CollectOutcome.thrown "") =
          (acc ++ [(name, JSVal.null)], q + 2) from rfl]
        rw [ih]
        simp [componentOf, contributes, List.filter_cons]
        omega
      · rw [List.foldl_cons]
        rw [show processResult (acc, q) (name, CollectOutcome.thrown msg) =
          (acc ++ [(name, JSVal.obj (.cons "error" (.str msg) .nil))], q) from by
            simp [processResult, hm]]
        rw [ih]
        simp [componentOf, contributes, hm, List.filter_cons]
    | value v =>
      rw [List.foldl_cons]
      by_cases hv : hasError v
      · rw [show processResult (acc, q) (name, CollectOutcome.value v) =
          (acc ++ [(name, v)], q) from by simp [processResult, hv]]
        rw [ih]
        simp [componentOf, contributes, hv, List.filter_cons]
      · rw [show processResult (acc, q) (name, CollectOutcome.value v) =
          (acc ++ [(name, v)], q + 2) from by simp [processResult, hv]]
        rw [ih]
        simp [componentOf, contributes, hv, List.filter_cons]
        omega

theorem processResults_eq (cs : List String) (outcome : String → CollectOutcome) :
    processResults (cs.map (fun n => (n, outcome n))) =
      (cs.map (fun n => (n, componentOf (outcome n))),
        2 * ((cs.filter (fun n => contributes (outcome n))).length : Int)) := by
  unfold processResults
  rw [processResults_go]
  rw [Prod.mk.injEq]
  refine ⟨by simp [List.map_map], ?_⟩
  rw [List.filter_map]
  simp [List.length_map]
  congr 1

theorem lookup_map_self (f : String → JSVal) (name : String) :
    ∀ cs : List String, cs.Nodup → name ∈ cs →
      (cs.map (fun n => (n, f n))).lookup name = some (f name) := by
  intro cs
  induction cs with
  | nil => intro _ h; cases h
  | cons c rest ih =>
    intro hnd hmem
    rcases List.mem_cons.mp hmem with rfl | hmem'
    · simp [List.lookup]
    · have hne : name ≠ c := by
        rintro rfl
        exact (List.nodup_cons.mp hnd).1 hmem'
      have hbeq : (name == c) = false := beq_eq_false_iff_ne.mpr hne
      simp only [List.map_cons, List.lookup, hbeq]
      exact ih (List.nodup_cons.mp hnd).2 hmem'

theorem lookup_append (l₁ l₂ : Components) (k : String) :
    (l₁ ++ l₂).lookup k =
      match l₁.lookup k with
      | some v => some v
      | none => l₂.lookup k := by
  induction l₁ with
  | nil => simp [List.lookup]
  | cons e rest ih =>
    obtain ⟨ek, ev⟩ := e
    by_cases h : k = ek
    · subst h; simp [List.lookup]
    · have hbeq : (k == ek) = false := beq_eq_false_iff_ne.mpr h
      simp only [List.cons_append, List.lookup, hbeq]
      exact ih

theorem initializeCollectors_sublist (opts : GenOptions) :
    List.Sublist (initializeCollectors opts) allCollectorNames := by
  have hifsub : ∀ (b : Bool) (x : String),
      List.Sublist (if b then [x] else []) [x] := by
    intro b x; cases b <;> simp
  have hdecomp : allCollectorNames =
      (((((((((((((((((["userAgent"] ++ ["language"]) ++ ["timezone"]) ++ ["screen"]) ++ ["plugins"]) ++ ["canvas"]) ++ ["webgl"]) ++ ["audio"]) ++ ["fonts"]) ++ ["hardware"]) ++ ["webrtc"]) ++ ["clientHints"]) ++ ["storage"]) ++ ["battery"]) ++ ["connection"]) ++ ["touch"]) ++ ["permissions"]) ++ ["math"]) ++ ["mediaDevices"] := rfl
  rw [hdecomp]
  unfold initializeCollectors
  refine List.Sublist.append ?_ (hifsub _ _)
  refine List.Sublist.append ?_ (hifsub _ _)
  refine List.Sublist.append ?_ (hifsub _ _)
  refine List.Sublist.append ?_ (hifsub _ _)
  refine List.Sublist.append ?_ (hifsub _ _)
  refine List.Sublist.append ?_ (hifsub _ _)
  refine List.Sublist.append ?_ (hifsub _ _)
  refine List.Sublist.append ?_ (hifsub _ _)
  refine List.Sublist.append ?_ (hifsub _ _)
  refine List.Sublist.append ?_ (hifsub _ _)
  refine List.Sublist.append ?_ (hifsub _ _)
  refine List.Sublist.append ?_ (hifsub _ _)
  refine List.Sublist.append ?_ (hifsub _ _)
  refine List.Sublist.append ?_ (hifsub _ _)
  refine List.Sublist.append ?_ (hifsub _ _)
  refine List.Sublist.append ?_ (hifsub _ _)
  refine List.Sublist.append ?_ (hifsub _ _)
  refine List.Sublist.append ?_ (hifsub _ _)
  exact hifsub _ _

theorem initializeCollectors_nodup (opts : GenOptions) :
    (initializeCollectors opts).Nodup :=
  List.Nodup.sublist (initializeCollectors_sublist opts)
    (show allCollectorNames.Nodup by decide)

theorem custom_not_collector (opts : GenOptions) :
    "custom" ∉ initializeCollectors opts := fun h =>
  absurd ((initializeCollectors_sublist opts).subset h)
    (show "custom" ∉ allCollectorNames by decide)

theorem generate_ok_form (opts : GenOptions) (env : WindowEnv)
    (crypto : CryptoEnv) (outcome : String → CollectOutcome) (d : Int)
    (hB : isBrowser env = true) (hS : opts.includeSuspectAnalysis = false) :
    generate opts env crypto outcome d = GenOut.ok
      { fingerprint := sha256 crypto (safeStringify (JSVal.obj
          (objOfComponents (collectAndMerge opts outcome).1)))
        components := (collectAndMerge opts outcome).1
        confidence := confidencePercent (collectAndMerge opts outcome).2
          (maxConfidenceHalves opts)
        entropy := calculateEntropy (initializeCollectors opts)
          (collectAndMerge opts outcome).1
        duration := d, version := "2.0.0", suspectAnalysis := none } := by
  unfold generate
  rw [hB, hS]
  simp

theorem lookup_map_none (f : String → JSVal) (name : String) :
    ∀ cs : List String, name ∉ cs →
      (cs.map (fun n => (n, f n))).lookup name = none := by
  intro cs
  induction cs with
  | nil => intro _; rfl
  | cons c rest ih =>
    intro hmem
    have hne : name ≠ c := fun h => hmem (h ▸ List.mem_cons_self c rest)
    have hbeq : (name == c) = false := beq_eq_false_iff_ne.mpr hne
    simp only [List.map_cons, List.lookup, hbeq]
    exact ih (fun h => hmem (List.mem_cons_of_mem c h))

theorem collectAndMerge_fst_lookup (opts : GenOptions)
    (outcome : String → CollectOutcome) :
    ∀ name ∈ initializeCollectors opts,
      (collectAndMerge opts outcome).1.lookup name =
        some (componentOf (outcome name)) := by
  intro name hmem
  have hbase : (processResults ((initializeCollectors opts).map
      (fun n => (n, outcome n)))).1 =
      (initializeCollectors opts).map (fun n => (n, componentOf (outcome n))) := by
    rw [processResults_eq]
  have hlook := lookup_map_self (fun n => componentOf (outcome n)) name
    (initializeCollectors opts) (initializeCollectors_nodup opts) hmem
  unfold collectAndMerge
  rcases hcd : opts.customData with _ | cd
  · simp only []
    rw [hbase]
    exact hlook
  · simp only []
    by_cases hl : (if !opts.allowUnstableData then normalizeCustomData cd
        else cd).length > 0
    · simp only [if_pos hl]
      rw [hbase, lookup_append, hlook]
    · simp only [if_neg hl]
      rw [hbase]
      exact hlook

theorem collectAndMerge_snd (opts : GenOptions)
    (outcome : String → CollectOutcome) :
    (collectAndMerge opts outcome).2 =
      2 * (((initializeCollectors opts).filter
        (fun n => contributes (outcome n))).length : Int) +
      (match opts.customData with
       | none => 0
       | some cd =>
         if (if !opts.allowUnstableData then normalizeCustomData cd
             else cd).length > 0 then 1 else 0) := by
  unfold collectAndMerge
  rcases hcd : opts.customData with _ | cd
  · simp only []
    rw [processResults_eq]
    simp
  · simp only []
    by_cases hl : (if !opts.allowUnstableData then normalizeCustomData cd
        else cd).length > 0
    · simp only [if_pos hl]
      rw [processResults_eq]
    · simp only [if_neg hl]
      rw [processResults_eq]
      simp

/-- C2 counterexample: a run with M = 1 registered collector and N = 0
throwing, whose one collector resolves with the sentinel `"unknown"`.  The
claimed formula gives round(1 / 1 × 100) = 100, but `generate` returns
confidence 0: the numerator counts non-error-marker values, not merely
non-throwing collectors. -/
theorem generate_confidence_formula_counterexample :
    initializeCollectors onlyUAOptions = ["userAgent"] ∧
    genConfidence (generate onlyUAOptions benignEnv noCrypto
      (fun _ => .value (.str "unknown")) 0) = some (JSNum.val 0) ∧
    confidencePercent (2 * ((1 : Int) - 0) + 0) (2 * 1 + 0) = JSNum.val 100 :=
  ⟨by decide, by decide, by decide⟩

/-- C2 (amended): for every run of `generate` in a browser (suspicion
analysis off) with M registered collectors of which N throw, where every
thrown error carries a non-empty message and every collected value is not
itself an error marker, the returned components mapping contains all M
collector names — the M−N collected values bound as collected and the N
throwers bound to error markers carrying the message — and the confidence
percentage equals round(((M−N) + 0.5 if non-empty custom data was merged) /
(M + 0.5 if customData was configured) × 100); no single collector failure
aborts the batch (the call still returns a result). -/
theorem generate_isolation_of_failure (opts : GenOptions) (env : WindowEnv)
    (crypto : CryptoEnv) (outcome : String → CollectOutcome) (d : Int)
    (hB : isBrowser env = true) (hS : opts.includeSuspectAnalysis = false)
    (hOk : ∀ name ∈ initializeCollectors opts,
      outcomeAdmissible (outcome name) = true) :
    ∃ r, generate opts env crypto outcome d = GenOut.ok r ∧
      (∀ name ∈ initializeCollectors opts,
        r.components.lookup name = some (componentOf (outcome name))) ∧
      r.confidence = confidencePercent
        (2 * (((initializeCollectors opts).length : Int) -
          (((initializeCollectors opts).filter
            (fun n => isThrown (outcome n))).length : Int)) +
          (match opts.customData with
           | none => 0
           | some cd =>
             if (if !opts.allowUnstableData then normalizeCustomData cd
                 else cd).length > 0 then 1 else 0))
        (2 * ((initializeCollectors opts).length : Int) +
          (if opts.customData.isSome then 1 else 0)) := by
  refine ⟨_, generate_ok_form opts env crypto outcome d hB hS, ?_, ?_⟩
  · exact collectAndMerge_fst_lookup opts outcome
  · show confidencePercent (collectAndMerge opts outcome).2
      (maxConfidenceHalves opts) = _
    have hcongr : (initializeCollectors opts).filter
        (fun n => contributes (outcome n)) =
        (initializeCollectors opts).filter
          (fun n => !isThrown (outcome n)) := by
      apply List.filter_congr
      intro n hn
      have h := hOk n hn
      cases ho : outcome n with
      | thrown msg =>
        rw [ho] at h
        simp only [outcomeAdmissible, bne_iff_ne, ne_eq] at h
        simp [contributes, isThrown, h]
      | value v =>
        rw [ho] at h
        simp only [outcomeAdmissible, Bool.not_eq_true'] at h
        simp [contributes, isThrown, h]
    have hsplit := List.length_eq_length_filter_add
      (l := initializeCollectors opts) (fun n => isThrown (outcome n))
    have hcount : (((initializeCollectors opts).filter
        (fun n => contributes (outcome n))).length : Int) =
        ((initializeCollectors opts).length : Int) -
          (((initializeCollectors opts).filter
            (fun n => isThrown (outcome n))).length : Int) := by
      rw [hcongr]
      omega
    rw [collectAndMerge_snd, hcount]
    unfold maxConfidenceHalves
    rfl

/-- C2 witness: the amended theorem applied to a concrete run with M = 2
collectors of which N = 1 throws: all hypotheses discharged by
evaluation (the resulting confidence is round(1 / 2 × 100) = 50). -/
theorem generate_isolation_of_failure_witness :
    ∃ r, generate uaLangOptions benignEnv noCrypto uaLangOutcome 0 = GenOut.ok r ∧
      (∀ name ∈ initializeCollectors uaLangOptions,
        r.components.lookup name = some (componentOf (uaLangOutcome name))) ∧
      r.confidence = confidencePercent
        (2 * (((initializeCollectors uaLangOptions).length : Int) -
          (((initializeCollectors uaLangOptions).filter
            (fun n => isThrown (uaLangOutcome n))).length : Int)) +
          (match uaLangOptions.customData with
           | none => 0
           | some cd =>
             if (if !uaLangOptions.allowUnstableData then normalizeCustomData cd
                 else cd).length > 0 then 1 else 0))
        (2 * ((initializeCollectors uaLangOptions).length : Int) +
          (if uaLangOptions.customData.isSome then 1 else 0)) :=
  generate_isolation_of_failure uaLangOptions benignEnv noCrypto uaLangOutcome 0
    (by decide) rfl (by decide)

theorem processResults_fst (cs : List String) (outcome : String → CollectOutcome) :
    (processResults (cs.map (fun n => (n, outcome n)))).1 =
      cs.map (fun n => (n, componentOf (outcome n))) := by
  rw [processResults_eq]

/-- C3 counterexample: customData whose normalization is empty is NOT
treated as if customData were omitted.  No `custom` entry appears and the
numerator is uncredited, but the denominator still carries the extra 0.5:
the same run returns confidence 67 with the effectively-empty customData
configured and 100 with customData omitted. -/
theorem generate_empty_custom_counterexample :
    normalizeCustomData (.cons "timestamp" (.num 1699999999999) .nil) = .nil ∧
    (getOkResult (generate onlyUATimestampOptions benignEnv noCrypto
      uaOnlyOutcome 0)).components.lookup "custom" = none ∧
    genConfidence (generate onlyUATimestampOptions benignEnv noCrypto
      uaOnlyOutcome 0) = some (JSNum.val 67) ∧
    genConfidence (generate onlyUAOptions benignEnv noCrypto
      uaOnlyOutcome 0) = some (JSNum.val 100) :=
  ⟨by decide, by decide, by decide, by decide⟩

/-- C3 (amended): if customData is configured but normalization removes
every key, `generate` adds no `custom` entry and credits no numerator half,
and the components mapping is exactly that of the run with customData
omitted — but the denominator still carries the extra 0.5 whenever
customData was configured, so the confidence percentage is computed over
M + 0.5 rather than M and in general differs from the customData-omitted
run. -/
theorem generate_empty_custom_behavior (opts : GenOptions) (env : WindowEnv)
    (crypto : CryptoEnv) (outcome : String → CollectOutcome) (d : Int)
    (cd : JSFields)
    (hB : isBrowser env = true) (hS : opts.includeSuspectAnalysis = false)
    (hcd : opts.customData = some cd)
    (hEmpty : (if !opts.allowUnstableData then normalizeCustomData cd
      else cd) = .nil) :
    ∃ r r', generate opts env crypto outcome d = GenOut.ok r ∧
      generate { opts with customData := none } env crypto outcome d =
        GenOut.ok r' ∧
      r.components = r'.components ∧
      r.components.lookup "custom" = none ∧
      r.confidence = confidencePercent
        (processResults ((initializeCollectors opts).map
          (fun n => (n, outcome n)))).2
        (2 * ((initializeCollectors opts).length : Int) + 1) ∧
      r'.confidence = confidencePercent
        (processResults ((initializeCollectors opts).map
          (fun n => (n, outcome n)))).2
        (2 * ((initializeCollectors opts).length : Int)) := by
  have hinit' : initializeCollectors { opts with customData := none } =
      initializeCollectors opts := rfl
  have hS' : ({ opts with customData := none } : GenOptions).includeSuspectAnalysis =
      false := hS
  have hcd' : ({ opts with customData := none } : GenOptions).customData = none := rfl
  generalize hgen : ({ opts with customData := none } : GenOptions) = opts2
    at hinit' hS' hcd' ⊢
  have hmerge : collectAndMerge opts outcome =
      processResults ((initializeCollectors opts).map (fun n => (n, outcome n))) := by
    unfold collectAndMerge
    rw [hcd]
    simp only [hEmpty]
    rfl
  have hmerge2 : collectAndMerge opts2 outcome =
      processResults ((initializeCollectors opts).map (fun n => (n, outcome n))) := by
    unfold collectAndMerge
    rw [hcd', hinit']
  have hfst : (collectAndMerge opts outcome).1 =
      (initializeCollectors opts).map (fun n => (n, componentOf (outcome n))) :=
    (congrArg Prod.fst hmerge).trans
      (processResults_fst (initializeCollectors opts) outcome)
  have hmax : maxConfidenceHalves opts =
      2 * ((initializeCollectors opts).length : Int) + 1 := by
    unfold maxConfidenceHalves
    rw [hcd]
    rfl
  have hmax2 : maxConfidenceHalves opts2 =
      2 * ((initializeCollectors opts).length : Int) := by
    unfold maxConfidenceHalves
    rw [hcd', hinit']
    simp
  refine ⟨_, _, generate_ok_form opts env crypto outcome d hB hS,
    generate_ok_form opts2 env crypto outcome d hB hS',
    ?_, ?_, ?_, ?_⟩
  · show (collectAndMerge opts outcome).1 = (collectAndMerge opts2 outcome).1
    exact congrArg Prod.fst (hmerge.trans hmerge2.symm)
  · show (collectAndMerge opts outcome).1.lookup "custom" = none
    rw [hfst]
    exact lookup_map_none (fun n => componentOf (outcome n)) "custom"
      (initializeCollectors opts) (custom_not_collector opts)
  · show confidencePercent (collectAndMerge opts outcome).2
      (maxConfidenceHalves opts) = _
    rw [congrArg Prod.snd hmerge, hmax]
  · show confidencePercent (collectAndMerge opts2 outcome).2
      (maxConfidenceHalves opts2) = _
    rw [congrArg Prod.snd hmerge2, hmax2]

/-- C3 witness: the amended theorem applied to the concrete timestamp-only
customData run. -/
theorem generate_empty_custom_behavior_witness :
    ∃ r r', generate onlyUATimestampOptions benignEnv noCrypto uaOnlyOutcome 0 =
        GenOut.ok r ∧
      generate { onlyUATimestampOptions with customData := none } benignEnv
        noCrypto uaOnlyOutcome 0 = GenOut.ok r' ∧
      r.components = r'.components ∧
      r.components.lookup "custom" = none ∧
      r.confidence = confidencePercent
        (processResults ((initializeCollectors onlyUATimestampOptions).map
          (fun n => (n, uaOnlyOutcome n)))).2
        (2 * ((initializeCollectors onlyUATimestampOptions).length : Int) + 1) ∧
      r'.confidence = confidencePercent
        (processResults ((initializeCollectors onlyUATimestampOptions).map
          (fun n => (n, uaOnlyOutcome n)))).2
        (2 * ((initializeCollectors onlyUATimestampOptions).length : Int)) :=
  generate_empty_custom_behavior onlyUATimestampOptions benignEnv noCrypto
    uaOnlyOutcome 0 (.cons "timestamp" (.num 1699999999999) .nil)
    (by decide) rfl rfl (by decide)
